import Mathlib

set_option maxHeartbeats 1000000

/-!
Verification of the inheritance-vault orchestration program (`src/main.rs`)
against its design specification.

The development shallowly embeds the program: the note data model and the
note-construction sequence of `main` (STEP 3, lines 112-134), the helper
`create_basic_faucet` (lines 28-51), and the whole orchestration flow of
`main` (lines 54-177) as a function from the outcomes of the external
ledger-client calls to the trace of calls performed and the flow's final
result.  External library operations (the miden client) and the MASM
condition script, which are not part of this repository's sources, are
modelled from the specification where a claim depends on their behaviour;
each such definition carries a doc comment saying so.
-/

/-- Field modulus of the Miden VM base field: `2^64 - 2^32 + 1`. -/
def feltModulus : Nat := 2 ^ 64 - 2 ^ 32 + 1

/-- Modelled from the spec: `Felt::new` embeds a machine integer into the
base field by reduction modulo the field modulus (field elements are the
scalar type of note inputs and metadata aux values). -/
def Felt.new (n : Nat) : Nat := n % feltModulus

/-- A VM word: four field elements.  Note serial numbers are words
(`client.rng().draw_word()`, line 123). -/
abbrev Word := Nat × Nat × Nat × Nat

/-- Account identifier.  `preFelt` models `id().prefix().as_felt()` and
`suffix` models `id().suffix()` (the two field elements of a Miden account
id, line 122). -/
structure AccountId where
  preFelt : Nat
  suffix : Nat
  deriving DecidableEq

/-- An account as the flow sees it: its identifier. -/
structure Account where
  id : AccountId
  deriving DecidableEq

/-- Errors returned by the external ledger client (`ClientError` in the
source; constructors follow the spec's error taxonomy in section 7). -/
inductive ClientError where
  | submissionRejected
  | networkError
  | syncFailed
  | accountError
  deriving DecidableEq

/-- Local note-construction errors (spec section 7, `ConstructionError`). -/
inductive ConstructionError where
  | scriptCompilationError
  | invalidAssetError
  | malformedNoteInputs
  deriving DecidableEq

/-- Why a Rust panic happened: an `.unwrap()` on an `Err` carrying a client
error or a construction error, or an `.unwrap()` on a failed IO operation
(keystore open, reading the MASM file). -/
inductive PanicReason where
  | clientErr (e : ClientError)
  | constructionErr (e : ConstructionError)
  | ioPanic
  deriving DecidableEq

/-- How a step of the flow terminates abnormally: `errReturn e` models the
`?` operator returning `Err(e)` from the enclosing function, `panicked r`
models a Rust panic from `.unwrap()`. -/
inductive Termination where
  | errReturn (e : ClientError)
  | panicked (r : PanicReason)
  deriving DecidableEq

/-- A compiled note script.  The compiled artifact is opaque to this layer
(spec section 9: "opaque script artifact as a capability boundary"); it is
identified by the source it was compiled from. -/
structure NoteScript where
  source : String
  deriving DecidableEq

/-- The typed inputs of a note script: a vector of field elements. -/
structure NoteInputs where
  values : List Nat
  deriving DecidableEq

/-- Modelled from the spec: `NoteInputs::new` packages the input vector
(the spec states no rejection condition for the three-element input vector
the program uses, so the model always succeeds). -/
def NoteInputs.new (values : List Nat) : Except ConstructionError NoteInputs :=
  Except.ok ⟨values⟩

/-- A note recipient: the cryptographic binding of a random serial number,
the compiled condition script and the script's inputs (spec section 3). -/
structure NoteRecipient where
  serialNum : Word
  script : NoteScript
  inputs : NoteInputs
  deriving DecidableEq

/-- `NoteRecipient::new` (line 124). -/
def NoteRecipient.new (serialNum : Word) (script : NoteScript) (inputs : NoteInputs) :
    NoteRecipient :=
  ⟨serialNum, script, inputs⟩

/-- Note execution mode used by tags. -/
inductive NoteExecutionMode where
  | Local
  | Network
  deriving DecidableEq

/-- A note discovery tag. -/
structure NoteTag where
  useCase : Nat
  payload : Nat
  mode : NoteExecutionMode
  deriving DecidableEq

/-- Modelled from the spec: `NoteTag::for_public_use_case` builds a
discovery tag from a use-case id, a payload and an execution mode (the
spec attaches no failure condition to the `(0, 0, Local)` arguments the
program passes, so the model always succeeds). -/
def NoteTag.for_public_use_case (useCase payload : Nat) (mode : NoteExecutionMode) :
    Except ClientError NoteTag :=
  Except.ok ⟨useCase, payload, mode⟩

/-- Note visibility type. -/
inductive NoteType where
  | Public
  | Private
  deriving DecidableEq

/-- Note execution hint; the program uses `NoteExecutionHint::always()`. -/
inductive NoteExecutionHint where
  | always
  | afterBlock (blockNum : Nat)
  deriving DecidableEq

/-- Note metadata: sender, visibility type, discovery tag, execution hint
and the auxiliary field element (spec section 3). -/
structure NoteMetadata where
  sender : AccountId
  noteType : NoteType
  tag : NoteTag
  executionHint : NoteExecutionHint
  aux : Nat
  deriving DecidableEq

/-- Modelled from the spec: `NoteMetadata::new` bundles the metadata
fields (the spec attaches no failure condition to the arguments the
program passes, so the model always succeeds; the program nevertheless
applies `?` to the result, which the flow embedding preserves). -/
def NoteMetadata.new (sender : AccountId) (noteType : NoteType) (tag : NoteTag)
    (executionHint : NoteExecutionHint) (aux : Nat) : Except ClientError NoteMetadata :=
  Except.ok ⟨sender, noteType, tag, executionHint, aux⟩

/-- A fungible asset: issuing faucet id and amount. -/
structure FungibleAsset where
  faucetId : AccountId
  amount : Nat
  deriving DecidableEq

/-- Declared maximum supply of the program's faucet:
`Felt::new(1_000_000)` (line 38). -/
def maxSupply : Nat := 1000000

/-- Modelled from the spec: `FungibleAsset::new` fails with
`InvalidAssetError` "if the asset quantity is zero or exceeds issuance
limits" (spec section 4.1); the issuance limit is the faucet's declared
maximum supply (spec section 3, asset invariant). -/
def FungibleAsset.new (faucetId : AccountId) (amount : Nat) :
    Except ConstructionError FungibleAsset :=
  if amount = 0 ∨ maxSupply < amount then Except.error ConstructionError.invalidAssetError
  else Except.ok ⟨faucetId, amount⟩

/-- An asset payload entry. -/
inductive Asset where
  | fungible (asset : FungibleAsset)
  deriving DecidableEq

/-- The asset payload of a note. -/
structure NoteAssets where
  assets : List Asset
  deriving DecidableEq

/-- Modelled from the spec: `NoteAssets::new` packages the asset list (the
spec attaches no failure condition to a singleton fungible asset, so the
model always succeeds). -/
def NoteAssets.new (assets : List Asset) : Except ConstructionError NoteAssets :=
  Except.ok ⟨assets⟩

/-- A note: assets, metadata and recipient (spec section 3). -/
structure Note where
  assets : NoteAssets
  metadata : NoteMetadata
  recipient : NoteRecipient
  deriving DecidableEq

/-- `Note::new` (line 134). -/
def Note.new (assets : NoteAssets) (metadata : NoteMetadata) (recipient : NoteRecipient) :
    Note :=
  ⟨assets, metadata, recipient⟩

/-- A note identifier. -/
structure NoteId where
  assetsPart : NoteAssets
  recipientPart : NoteRecipient
  deriving DecidableEq

/-- Modelled from the spec: the note id is "derived deterministically from
`assets` and `recipient`", and "two notes with identical assets and
recipient fields ... collide in `id`" (spec section 3).  The digest is
modelled as the pair itself: deterministic, and collision-free exactly in
the sense the spec asserts. -/
def Note.id (n : Note) : NoteId := ⟨n.assets, n.recipient⟩

/-- Modelled from the spec: the MASM condition script
(`inheritance_vault_note.masm`) is read from disk at line 117 and is not
among this repository's sources.  Spec section 4.2 gives its contract: a
consumption attempt succeeds iff the current ledger height is at least the
deadline height and the consuming account's two identifier parts equal the
stored beneficiary inputs; in every other case it is rejected. -/
def conditionScriptAccepts (deadline benSuffix benPre : Nat)
    (height consumerSuffix consumerPre : Nat) : Bool :=
  decide (deadline ≤ height) && decide (consumerSuffix = benSuffix) &&
    decide (consumerPre = benPre)

/-- The deadline computed by `main`: current synchronized block height
plus 3 (line 112). -/
def deadlineHeight (syncHeight : Nat) : Nat := syncHeight + 3

/-- Blocks remaining until the deadline at note-creation time. -/
def blocksRemaining (syncHeight : Nat) : Nat := deadlineHeight syncHeight - syncHeight

/-- The fixed consumption delay: `sleep(Duration::from_secs(10))`
(line 157). -/
def sleepSecs : Nat := 10

/-- C3: while the current ledger height is strictly below the deadline
height, the condition script rejects every consumption attempt, whatever
the consuming account's identifier parts are (owner and beneficiary
included). -/
theorem locked_state_rejects_everyone
    (deadline benSuffix benPre height consumerSuffix consumerPre : Nat)
    (hlt : height < deadline) :
    conditionScriptAccepts deadline benSuffix benPre height consumerSuffix consumerPre
      = false := by
  have hnle : ¬ deadline ≤ height := Nat.not_le.mpr hlt
  simp [conditionScriptAccepts, hnle]

/-- C3 witness: at height 4 with deadline 5, even the exact beneficiary
(suffix 1, prefix 2) is rejected. -/
theorem locked_state_rejects_everyone_witness :
    4 < 5 ∧ conditionScriptAccepts 5 1 2 4 1 2 = false :=
  ⟨by decide, locked_state_rejects_everyone 5 1 2 4 1 2 (by decide)⟩

/-- The note-construction sequence of `main` (STEP 3, lines 112-134): from
the synchronized block height (line 105), the beneficiary, owner and
faucet identifiers, the outcome of reading the MASM file (line 117), the
outcome of compiling it (line 118) and the drawn serial number (line 123),
build the inheritance note.  Every `.unwrap()` of the source is modelled
as a `panicked` termination, the `?` on `NoteMetadata::new` (line 126) as
an `errReturn` termination. -/
def buildInheritanceNote (syncHeight : Nat) (beneficiary owner faucetId : AccountId)
    (noteFile : Option String) (compiled : Except ConstructionError NoteScript)
    (serialNum : Word) : Except Termination Note :=
  let deadline := deadlineHeight syncHeight
  match noteFile with
  | none => Except.error (Termination.panicked PanicReason.ioPanic)
  | some _noteCode =>
  match compiled with
  | Except.error ce => Except.error (Termination.panicked (PanicReason.constructionErr ce))
  | Except.ok note_script =>
  match NoteInputs.new [Felt.new deadline, beneficiary.suffix, beneficiary.preFelt] with
  | Except.error ce => Except.error (Termination.panicked (PanicReason.constructionErr ce))
  | Except.ok note_inputs =>
  let recipient := NoteRecipient.new serialNum note_script note_inputs
  match NoteTag.for_public_use_case 0 0 NoteExecutionMode.Local with
  | Except.error e => Except.error (Termination.panicked (PanicReason.clientErr e))
  | Except.ok tag =>
  match NoteMetadata.new owner NoteType.Public tag NoteExecutionHint.always (Felt.new 0) with
  | Except.error e => Except.error (Termination.errReturn e)
  | Except.ok metadata =>
  match FungibleAsset.new faucetId 10 with
  | Except.error ce => Except.error (Termination.panicked (PanicReason.constructionErr ce))
  | Except.ok fasset =>
  match NoteAssets.new [Asset.fungible fasset] with
  | Except.error ce => Except.error (Termination.panicked (PanicReason.constructionErr ce))
  | Except.ok assets =>
  Except.ok (Note.new assets metadata recipient)

/-- Decidable equality for `Except`, needed to derive decidable equality
for structures of external-call outcomes. -/
def Except.decEq {ε α : Type} [DecidableEq ε] [DecidableEq α] :
    (a b : Except ε α) → Decidable (a = b)
  | Except.error e1, Except.error e2 =>
      if h : e1 = e2 then isTrue (by rw [h])
      else isFalse (fun hh => h (Except.error.inj hh))
  | Except.error _, Except.ok _ => isFalse (fun hh => Except.noConfusion hh)
  | Except.ok _, Except.error _ => isFalse (fun hh => Except.noConfusion hh)
  | Except.ok a1, Except.ok a2 =>
      if h : a1 = a2 then isTrue (by rw [h])
      else isFalse (fun hh => h (Except.ok.inj hh))

instance {ε α : Type} [DecidableEq ε] [DecidableEq α] : DecidableEq (Except ε α) :=
  Except.decEq

/-- A signing key held by the filesystem keystore. -/
inductive AuthSecretKey where
  | rpoFalcon512 (key : Nat)
  deriving DecidableEq

/-- The outcomes of the external calls `create_basic_faucet` makes:
`init_seed` drawn from the client rng (line 32), the generated key pair
(line 34), the result of `get_latest_epoch_block` (line 35), the account
the external `AccountBuilder::build` produces from the seed (line 45), and
the result of `client.add_account` (line 46). -/
structure FaucetEnv where
  initSeed : Word
  keyPair : Nat
  epochBlock : Except ClientError Nat
  builtAccount : Account
  addAccount : Except ClientError Unit
  deriving DecidableEq

/-- `create_basic_faucet` (lines 28-51) over the keystore state, modelled
as the list of keys it holds.  `get_latest_epoch_block().await.unwrap()`
(line 35) panics on error; `client.add_account(..)?` (line 46) returns the
error from the function; only after that succeeds is the signing key added
to the keystore (lines 47-49). -/
def create_basic_faucet (fenv : FaucetEnv) (keystore : List AuthSecretKey) :
    Except Termination Account × List AuthSecretKey :=
  match fenv.epochBlock with
  | Except.error e =>
      (Except.error (Termination.panicked (PanicReason.clientErr e)), keystore)
  | Except.ok _anchor =>
  match fenv.addAccount with
  | Except.error e => (Except.error (Termination.errReturn e), keystore)
  | Except.ok _ =>
      (Except.ok fenv.builtAccount,
        keystore ++ [AuthSecretKey.rpoFalcon512 fenv.keyPair])

/-- C2: every note the program builds carries exactly the three script
inputs `[deadline height, beneficiary suffix, beneficiary prefix]`, in
that positional order and nothing else. -/
theorem note_inputs_exact_layout (syncHeight : Nat) (ben own fau : AccountId)
    (noteFile : Option String) (compiled : Except ConstructionError NoteScript)
    (s : Word) (n : Note)
    (hb : buildInheritanceNote syncHeight ben own fau noteFile compiled s = Except.ok n) :
    n.recipient.inputs.values =
      [Felt.new (deadlineHeight syncHeight), ben.suffix, ben.preFelt] := by
  cases noteFile with
  | none => exact absurd hb (by simp [buildInheritanceNote])
  | some code =>
    cases compiled with
    | error ce => exact absurd hb (by simp [buildInheritanceNote])
    | ok scr =>
      have h2 := Except.ok.inj hb
      rw [← h2]
      rfl

/-- C2 witness: a concrete build at height 5 for beneficiary
(prefix 1, suffix 2) yields inputs `[8, 2, 1]`. -/
theorem note_inputs_exact_layout_witness :
    ∃ n : Note,
      buildInheritanceNote 5 ⟨1, 2⟩ ⟨3, 4⟩ ⟨5, 6⟩ (some "code") (Except.ok ⟨"src"⟩)
          (0, 0, 0, 0) = Except.ok n ∧
      n.recipient.inputs.values = [Felt.new (deadlineHeight 5), 2, 1] :=
  ⟨_, rfl, note_inputs_exact_layout 5 ⟨1, 2⟩ ⟨3, 4⟩ ⟨5, 6⟩ (some "code")
      (Except.ok ⟨"src"⟩) (0, 0, 0, 0) _ rfl⟩

/-- C4: the deadline stored as the first script input of the built note is
the synchronized block height plus 3, and (for any representable block
height, block numbers being 32-bit) it is strictly greater than the height
observed at construction time. -/
theorem deadline_strictly_after_observed_height (syncHeight : Nat)
    (ben own fau : AccountId) (noteFile : Option String)
    (compiled : Except ConstructionError NoteScript) (s : Word) (n : Note)
    (hheight : syncHeight < 2 ^ 32)
    (hb : buildInheritanceNote syncHeight ben own fau noteFile compiled s = Except.ok n) :
    n.recipient.inputs.values.head? = some (Felt.new (syncHeight + 3)) ∧
    Felt.new (syncHeight + 3) = syncHeight + 3 ∧
    syncHeight < Felt.new (syncHeight + 3) := by
  have hlt : syncHeight + 3 < feltModulus := by
    have h32 : (2 : Nat) ^ 32 + 3 ≤ feltModulus := by norm_num [feltModulus]
    omega
  have hfelt : Felt.new (syncHeight + 3) = syncHeight + 3 := Nat.mod_eq_of_lt hlt
  refine ⟨?_, hfelt, by omega⟩
  have hvals := note_inputs_exact_layout syncHeight ben own fau noteFile compiled s n hb
  rw [hvals]
  rfl

/-- C4 witness: at observed height 100 the stored deadline is 103 > 100. -/
theorem deadline_strictly_after_observed_height_witness :
    100 < 2 ^ 32 ∧
    (∃ n : Note,
      buildInheritanceNote 100 ⟨1, 2⟩ ⟨3, 4⟩ ⟨5, 6⟩ (some "code") (Except.ok ⟨"src"⟩)
          (0, 0, 0, 0) = Except.ok n ∧
      n.recipient.inputs.values.head? = some (Felt.new 103) ∧
      Felt.new 103 = 103 ∧ 100 < Felt.new 103) := by
  refine ⟨by decide, _, rfl, ?_⟩
  exact deadline_strictly_after_observed_height 100 ⟨1, 2⟩ ⟨3, 4⟩ ⟨5, 6⟩ (some "code")
    (Except.ok ⟨"src"⟩) (0, 0, 0, 0) _ (by decide) rfl

/-- C9: every note the program builds is public: its metadata is exactly
the owner id as sender, note type `Public`, the public-use-case tag
`(0, 0, Local)`, the always execution hint, and aux `Felt::new(0) = 0`. -/
theorem note_metadata_is_public (syncHeight : Nat) (ben own fau : AccountId)
    (noteFile : Option String) (compiled : Except ConstructionError NoteScript)
    (s : Word) (n : Note)
    (hb : buildInheritanceNote syncHeight ben own fau noteFile compiled s = Except.ok n) :
    n.metadata = ⟨own, NoteType.Public, ⟨0, 0, NoteExecutionMode.Local⟩,
      NoteExecutionHint.always, 0⟩ ∧
    NoteTag.for_public_use_case 0 0 NoteExecutionMode.Local =
      Except.ok ⟨0, 0, NoteExecutionMode.Local⟩ := by
  cases noteFile with
  | none => exact absurd hb (by simp [buildInheritanceNote])
  | some code =>
    cases compiled with
    | error ce => exact absurd hb (by simp [buildInheritanceNote])
    | ok scr =>
      have h2 := Except.ok.inj hb
      exact ⟨by rw [← h2]; rfl, rfl⟩

/-- C9 witness: a concrete build carries exactly the public metadata. -/
theorem note_metadata_is_public_witness :
    ∃ n : Note,
      buildInheritanceNote 5 ⟨1, 2⟩ ⟨3, 4⟩ ⟨5, 6⟩ (some "code") (Except.ok ⟨"src"⟩)
          (0, 0, 0, 0) = Except.ok n ∧
      n.metadata = ⟨⟨3, 4⟩, NoteType.Public, ⟨0, 0, NoteExecutionMode.Local⟩,
        NoteExecutionHint.always, 0⟩ :=
  ⟨_, rfl, (note_metadata_is_public 5 ⟨1, 2⟩ ⟨3, 4⟩ ⟨5, 6⟩ (some "code")
      (Except.ok ⟨"src"⟩) (0, 0, 0, 0) _ rfl).1⟩

/-- C5: for fixed assets, metadata, script and script inputs, the note id
is a deterministic function of assets and recipient: building with the
same serial number twice gives the same id, building with a different
serial number gives a different id. -/
theorem note_id_determined_by_serial (syncHeight : Nat) (ben own fau : AccountId)
    (noteFile : Option String) (compiled : Except ConstructionError NoteScript)
    (s1 s2 : Word) (n1 n2 : Note)
    (hb1 : buildInheritanceNote syncHeight ben own fau noteFile compiled s1 = Except.ok n1)
    (hb2 : buildInheritanceNote syncHeight ben own fau noteFile compiled s2 = Except.ok n2) :
    (s1 = s2 → n1.id = n2.id) ∧ (s1 ≠ s2 → n1.id ≠ n2.id) := by
  cases noteFile with
  | none => exact absurd hb1 (by simp [buildInheritanceNote])
  | some code =>
    cases compiled with
    | error ce => exact absurd hb1 (by simp [buildInheritanceNote])
    | ok scr =>
      have h1 := Except.ok.inj hb1
      have h2 := Except.ok.inj hb2
      subst h1
      subst h2
      constructor
      · intro hs
        rw [hs]
      · intro hs hid
        exact hs (congrArg (fun i => i.recipientPart.serialNum) hid)

/-- C5 witness: serial (0,0,0,0) twice gives equal ids; serials
(0,0,0,0) and (1,0,0,0) give different ids. -/
theorem note_id_determined_by_serial_witness :
    ∃ n1 n2 : Note,
      buildInheritanceNote 5 ⟨1, 2⟩ ⟨3, 4⟩ ⟨5, 6⟩ (some "code") (Except.ok ⟨"src"⟩)
          (0, 0, 0, 0) = Except.ok n1 ∧
      buildInheritanceNote 5 ⟨1, 2⟩ ⟨3, 4⟩ ⟨5, 6⟩ (some "code") (Except.ok ⟨"src"⟩)
          (1, 0, 0, 0) = Except.ok n2 ∧
      n1.id ≠ n2.id := by
  refine ⟨_, _, rfl, rfl, ?_⟩
  exact (note_id_determined_by_serial 5 ⟨1, 2⟩ ⟨3, 4⟩ ⟨5, 6⟩ (some "code")
    (Except.ok ⟨"src"⟩) (0, 0, 0, 0) (1, 0, 0, 0) _ _ rfl rfl).2 (by decide)

/-- C10: in `create_basic_faucet` the signing key reaches the keystore
only after `client.add_account` has succeeded: on an `add_account` error
the function returns that error and the keystore is unchanged, and a key
is appended exactly in the success case. -/
theorem faucet_key_added_only_after_account (fenv : FaucetEnv)
    (keystore : List AuthSecretKey) (anchor : Nat) (e : ClientError)
    (hepoch : fenv.epochBlock = Except.ok anchor) :
    (fenv.addAccount = Except.error e →
      create_basic_faucet fenv keystore = (Except.error (Termination.errReturn e), keystore)) ∧
    (fenv.addAccount = Except.ok () →
      create_basic_faucet fenv keystore =
        (Except.ok fenv.builtAccount,
          keystore ++ [AuthSecretKey.rpoFalcon512 fenv.keyPair])) := by
  constructor
  · intro hadd
    simp [create_basic_faucet, hepoch, hadd]
  · intro hadd
    simp [create_basic_faucet, hepoch, hadd]

/-- C10 witness: with a failing `add_account`, the faucet creation returns
the error and leaves the (empty) keystore untouched. -/
theorem faucet_key_added_only_after_account_witness :
    create_basic_faucet
        ⟨(0, 0, 0, 0), 7, Except.ok 0, ⟨⟨5, 6⟩⟩, Except.error ClientError.accountError⟩ [] =
      (Except.error (Termination.errReturn ClientError.accountError), []) :=
  (faucet_key_added_only_after_account
    ⟨(0, 0, 0, 0), 7, Except.ok 0, ⟨⟨5, 6⟩⟩, Except.error ClientError.accountError⟩
    [] 0 ClientError.accountError rfl).1 rfl

/-- The observable calls `main` performs, in order, forming the flow's
trace. -/
inductive Event where
  | syncStateCall
  | createAccountCall
  | createFaucetCall
  | mintCall
  | buildNoteStep
  | newTransactionCall
  | submitTransactionCall
  | sleepCall (secs : Nat)
  deriving DecidableEq

/-- The outcomes of every external (fallible or random) operation `main`
performs, in program order.  `sync1`/`sync2`/`sync3`/`sync4`/`sync5` are
the five `client.sync_state()` calls (lines 67, 97, 105, 148, 169);
`submit1`/`submit2` the two `client.submit_transaction` calls (lines 147
and 168). -/
structure Env where
  clientBuild : Except ClientError Unit
  sync1 : Except ClientError Nat
  keystoreOpen : Bool
  initialKeystore : List AuthSecretKey
  createOwner : Except ClientError Account
  createBeneficiary : Except ClientError Account
  faucetEnv : FaucetEnv
  sync2 : Except ClientError Nat
  mint : Except ClientError Unit
  sync3 : Except ClientError Nat
  readNoteFile : Option String
  compileScript : Except ConstructionError NoteScript
  serialNum : Word
  newTx1 : Except ClientError Nat
  submit1 : Except ClientError Unit
  sync4 : Except ClientError Nat
  newTx2 : Except ClientError Nat
  submit2 : Except ClientError Unit
  sync5 : Except ClientError Nat
  deriving DecidableEq

/-- The orchestration flow of `main` (lines 54-177): given the outcomes of
the external calls, the trace of calls made and the final result.
`.unwrap()` sites become `panicked` terminations, `?` sites `errReturn`
terminations.  The results of the two `submit_transaction` calls (lines
147 and 168) are bound to `_` in the source and therefore inspected
nowhere: the flow continues regardless of their outcome. -/
def mainFlow (env : Env) : List Event × Except Termination Unit :=
  match env.clientBuild with
  | Except.error e => ([], Except.error (Termination.errReturn e))
  | Except.ok _ =>
  match env.sync1 with
  | Except.error e =>
      ([Event.syncStateCall], Except.error (Termination.panicked (PanicReason.clientErr e)))
  | Except.ok _blockNum =>
  match env.keystoreOpen with
  | false =>
      ([Event.syncStateCall], Except.error (Termination.panicked PanicReason.ioPanic))
  | true =>
  match env.createOwner with
  | Except.error e =>
      ([Event.syncStateCall, Event.createAccountCall],
        Except.error (Termination.panicked (PanicReason.clientErr e)))
  | Except.ok owner_account =>
  match env.createBeneficiary with
  | Except.error e =>
      ([Event.syncStateCall, Event.createAccountCall, Event.createAccountCall],
        Except.error (Termination.panicked (PanicReason.clientErr e)))
  | Except.ok beneficiary_account =>
  match create_basic_faucet env.faucetEnv env.initialKeystore with
  | (Except.error (Termination.errReturn e), _) =>
      ([Event.syncStateCall, Event.createAccountCall, Event.createAccountCall,
        Event.createFaucetCall],
        Except.error (Termination.panicked (PanicReason.clientErr e)))
  | (Except.error (Termination.panicked r), _) =>
      ([Event.syncStateCall, Event.createAccountCall, Event.createAccountCall,
        Event.createFaucetCall],
        Except.error (Termination.panicked r))
  | (Except.ok faucet, _keystore1) =>
  match env.sync2 with
  | Except.error e =>
      ([Event.syncStateCall, Event.createAccountCall, Event.createAccountCall,
        Event.createFaucetCall, Event.syncStateCall],
        Except.error (Termination.errReturn e))
  | Except.ok _ =>
  match env.mint with
  | Except.error e =>
      ([Event.syncStateCall, Event.createAccountCall, Event.createAccountCall,
        Event.createFaucetCall, Event.syncStateCall, Event.mintCall],
        Except.error (Termination.panicked (PanicReason.clientErr e)))
  | Except.ok _ =>
  match env.sync3 with
  | Except.error e =>
      ([Event.syncStateCall, Event.createAccountCall, Event.createAccountCall,
        Event.createFaucetCall, Event.syncStateCall, Event.mintCall,
        Event.syncStateCall],
        Except.error (Termination.panicked (PanicReason.clientErr e)))
  | Except.ok sync_height =>
  match buildInheritanceNote sync_height beneficiary_account.id owner_account.id
      faucet.id env.readNoteFile env.compileScript env.serialNum with
  | Except.error t =>
      ([Event.syncStateCall, Event.createAccountCall, Event.createAccountCall,
        Event.createFaucetCall, Event.syncStateCall, Event.mintCall,
        Event.syncStateCall, Event.buildNoteStep],
        Except.error t)
  | Except.ok _inheritance_note =>
  match env.newTx1 with
  | Except.error e =>
      ([Event.syncStateCall, Event.createAccountCall, Event.createAccountCall,
        Event.createFaucetCall, Event.syncStateCall, Event.mintCall,
        Event.syncStateCall, Event.buildNoteStep, Event.newTransactionCall],
        Except.error (Termination.panicked (PanicReason.clientErr e)))
  | Except.ok _tx1 =>
  match env.sync4 with
  | Except.error e =>
      ([Event.syncStateCall, Event.createAccountCall, Event.createAccountCall,
        Event.createFaucetCall, Event.syncStateCall, Event.mintCall,
        Event.syncStateCall, Event.buildNoteStep, Event.newTransactionCall,
        Event.submitTransactionCall, Event.syncStateCall],
        Except.error (Termination.errReturn e))
  | Except.ok _ =>
  match env.newTx2 with
  | Except.error e =>
      ([Event.syncStateCall, Event.createAccountCall, Event.createAccountCall,
        Event.createFaucetCall, Event.syncStateCall, Event.mintCall,
        Event.syncStateCall, Event.buildNoteStep, Event.newTransactionCall,
        Event.submitTransactionCall, Event.syncStateCall, Event.sleepCall sleepSecs,
        Event.newTransactionCall],
        Except.error (Termination.panicked (PanicReason.clientErr e)))
  | Except.ok _tx2 =>
  match env.sync5 with
  | Except.error e =>
      ([Event.syncStateCall, Event.createAccountCall, Event.createAccountCall,
        Event.createFaucetCall, Event.syncStateCall, Event.mintCall,
        Event.syncStateCall, Event.buildNoteStep, Event.newTransactionCall,
        Event.submitTransactionCall, Event.syncStateCall, Event.sleepCall sleepSecs,
        Event.newTransactionCall, Event.submitTransactionCall, Event.syncStateCall],
        Except.error (Termination.errReturn e))
  | Except.ok _ =>
      ([Event.syncStateCall, Event.createAccountCall, Event.createAccountCall,
        Event.createFaucetCall, Event.syncStateCall, Event.mintCall,
        Event.syncStateCall, Event.buildNoteStep, Event.newTransactionCall,
        Event.submitTransactionCall, Event.syncStateCall, Event.sleepCall sleepSecs,
        Event.newTransactionCall, Event.submitTransactionCall, Event.syncStateCall],
        Except.ok ())

/-- Checks that every `submitTransactionCall` in a trace is immediately
followed by a `syncStateCall`. -/
def submitFollowedBySync : List Event → Bool
  | [] => true
  | Event.submitTransactionCall :: rest =>
    match rest with
    | Event.syncStateCall :: _ => submitFollowedBySync rest
    | _ => false
  | _ :: rest => submitFollowedBySync rest

/-- Number of `submitTransactionCall` events occurring before the first
`sleepCall` of a trace (all of them, when the trace has no sleep). -/
def submitsBeforeFirstSleep : List Event → Nat
  | [] => 0
  | Event.sleepCall _ :: _ => 0
  | Event.submitTransactionCall :: rest => submitsBeforeFirstSleep rest + 1
  | _ :: rest => submitsBeforeFirstSleep rest

/-- Checks that every `sleepCall` in a trace sleeps for `d` seconds. -/
def allSleepsAre (d : Nat) : List Event → Bool
  | [] => true
  | Event.sleepCall s :: rest => (s == d) && allSleepsAre d rest
  | _ :: rest => allSleepsAre d rest

/-- C8: on every path of the flow, each of the two transaction
submissions is immediately followed by a ledger state re-synchronization
call, before any subsequent operation. -/
theorem submission_always_followed_by_sync (env : Env) :
    submitFollowedBySync (mainFlow env).1 = true := by
  unfold mainFlow
  repeat' split
  all_goals rfl

/-- C6: before attempting consumption the flow sleeps: on every path of
the flow at most one submission (the note-creation one) happens before the
first sleep, so the consumption submission always comes after it; every
sleep of the flow lasts `sleepSecs = 10` seconds, and that duration is the
number of blocks remaining until the deadline (3, by construction of the
deadline) times a positive per-block interval plus a positive safety
margin. -/
theorem consumption_waits_for_deadline_sleep (env : Env) (syncHeight : Nat) :
    submitsBeforeFirstSleep (mainFlow env).1 ≤ 1 ∧
    allSleepsAre sleepSecs (mainFlow env).1 = true ∧
    ∃ blockInterval safetyMargin : Nat,
      0 < blockInterval ∧ 0 < safetyMargin ∧
      sleepSecs = blocksRemaining syncHeight * blockInterval + safetyMargin := by
  refine ⟨?_, ?_, 3, 1, by decide, by decide, ?_⟩
  · unfold mainFlow
    repeat' split
    all_goals exact Nat.le_of_ble_eq_true rfl
  · unfold mainFlow
    repeat' split
    all_goals rfl
  · unfold sleepSecs blocksRemaining deadlineHeight
    omega

/-- A fully successful environment for the flow, except that the ledger
rejects both transaction submissions (lines 147 and 168). -/
def envSubmitRejected : Env where
  clientBuild := Except.ok ()
  sync1 := Except.ok 0
  keystoreOpen := true
  initialKeystore := []
  createOwner := Except.ok ⟨⟨3, 4⟩⟩
  createBeneficiary := Except.ok ⟨⟨1, 2⟩⟩
  faucetEnv := ⟨(0, 0, 0, 0), 7, Except.ok 0, ⟨⟨5, 6⟩⟩, Except.ok ()⟩
  sync2 := Except.ok 1
  mint := Except.ok ()
  sync3 := Except.ok 2
  readNoteFile := some "masm code"
  compileScript := Except.ok ⟨"masm code"⟩
  serialNum := (0, 0, 0, 0)
  newTx1 := Except.ok 11
  submit1 := Except.error ClientError.submissionRejected
  sync4 := Except.ok 3
  newTx2 := Except.ok 12
  submit2 := Except.error ClientError.submissionRejected
  sync5 := Except.ok 4

/-- C1 is violated by the code: both `submit_transaction` results are
bound to `_` (lines 147 and 168), so when the ledger rejects both
submissions the flow still performs both submission calls, discards the
errors, and `main` returns `Ok(())` — the submission errors never reach
the caller. -/
theorem submission_errors_swallowed :
    envSubmitRejected.submit1 = Except.error ClientError.submissionRejected ∧
    envSubmitRejected.submit2 = Except.error ClientError.submissionRejected ∧
    Event.submitTransactionCall ∈ (mainFlow envSubmitRejected).1 ∧
    (mainFlow envSubmitRejected).2 = Except.ok () := by
  refine ⟨rfl, rfl, ?_, rfl⟩
  decide

/-- A fully successful environment except that compiling the MASM
condition script fails (line 118). -/
def envCompileFail : Env where
  clientBuild := Except.ok ()
  sync1 := Except.ok 0
  keystoreOpen := true
  initialKeystore := []
  createOwner := Except.ok ⟨⟨3, 4⟩⟩
  createBeneficiary := Except.ok ⟨⟨1, 2⟩⟩
  faucetEnv := ⟨(0, 0, 0, 0), 7, Except.ok 0, ⟨⟨5, 6⟩⟩, Except.ok ()⟩
  sync2 := Except.ok 1
  mint := Except.ok ()
  sync3 := Except.ok 2
  readNoteFile := some "masm code"
  compileScript := Except.error ConstructionError.scriptCompilationError
  serialNum := (0, 0, 0, 0)
  newTx1 := Except.ok 11
  submit1 := Except.ok ()
  sync4 := Except.ok 3
  newTx2 := Except.ok 12
  submit2 := Except.ok ()
  sync5 := Except.ok 4

/-- C7: an asset quantity of zero or above the issuance limit makes
`FungibleAsset::new` fail with the invalid-asset error; a condition-script
compilation failure makes note construction fail with the
script-compilation error; and that construction error terminates the
whole orchestration flow immediately, surfacing the error as the flow's
result. -/
theorem construction_failures_surface_immediately :
    (∀ (fau : AccountId) (amount : Nat), amount = 0 ∨ maxSupply < amount →
      FungibleAsset.new fau amount = Except.error ConstructionError.invalidAssetError) ∧
    (∀ (syncHeight : Nat) (ben own fau : AccountId) (code : String)
        (ce : ConstructionError) (s : Word),
      buildInheritanceNote syncHeight ben own fau (some code) (Except.error ce) s =
        Except.error (Termination.panicked (PanicReason.constructionErr ce))) ∧
    (∀ (env : Env) (ce : ConstructionError) (b1 : Nat) (owner ben faucetAcc : Account)
        (ks : List AuthSecretKey) (b2 b3 : Nat) (code : String),
      env.clientBuild = Except.ok () → env.sync1 = Except.ok b1 →
      env.keystoreOpen = true → env.createOwner = Except.ok owner →
      env.createBeneficiary = Except.ok ben →
      create_basic_faucet env.faucetEnv env.initialKeystore = (Except.ok faucetAcc, ks) →
      env.sync2 = Except.ok b2 → env.mint = Except.ok () → env.sync3 = Except.ok b3 →
      env.readNoteFile = some code → env.compileScript = Except.error ce →
      (mainFlow env).2 =
        Except.error (Termination.panicked (PanicReason.constructionErr ce))) := by
  refine ⟨?_, ?_, ?_⟩
  · intro fau amount h
    unfold FungibleAsset.new
    rw [if_pos h]
  · intro syncHeight ben own fau code ce s
    rfl
  · intro env ce b1 owner ben faucetAcc ks b2 b3 code h1 h2 h3 h4 h5 h6 h7 h8 h9 h10 h11
    simp [mainFlow, h1, h2, h3, h4, h5, h6, h7, h8, h9, h10, h11, buildInheritanceNote]

/-- C7 witness: concrete zero-amount asset, concrete failing compilation,
and the concrete flow environment `envCompileFail`, all surfacing their
construction error. -/
theorem construction_failures_surface_immediately_witness :
    FungibleAsset.new ⟨5, 6⟩ 0 = Except.error ConstructionError.invalidAssetError ∧
    buildInheritanceNote 2 ⟨1, 2⟩ ⟨3, 4⟩ ⟨5, 6⟩ (some "masm code")
        (Except.error ConstructionError.scriptCompilationError) (0, 0, 0, 0) =
      Except.error (Termination.panicked
        (PanicReason.constructionErr ConstructionError.scriptCompilationError)) ∧
    (mainFlow envCompileFail).2 =
      Except.error (Termination.panicked
        (PanicReason.constructionErr ConstructionError.scriptCompilationError)) :=
  ⟨construction_failures_surface_immediately.1 ⟨5, 6⟩ 0 (Or.inl rfl),
   construction_failures_surface_immediately.2.1 2 ⟨1, 2⟩ ⟨3, 4⟩ ⟨5, 6⟩ "masm code"
     ConstructionError.scriptCompilationError (0, 0, 0, 0),
   construction_failures_surface_immediately.2.2 envCompileFail
     ConstructionError.scriptCompilationError 0 ⟨⟨3, 4⟩⟩ ⟨⟨1, 2⟩⟩ ⟨⟨5, 6⟩⟩
     [AuthSecretKey.rpoFalcon512 7] 1 2 "masm code" rfl rfl rfl rfl rfl rfl rfl rfl rfl
     rfl rfl⟩
